import Mathlib

/-!
Verification development for the vehicle-dynamics and AI-driving core of the
gt-racer repository. Each component the claims touch is shallowly embedded:
pure arithmetic modules (math utilities, rubber banding, the spline) over the
rationals, and the physics pipeline (suspension, tire, aerodynamics,
drivetrain, vehicle controller) over the reals, since JavaScript numbers are
idealised as exact real arithmetic and the tire and steering math use
transcendental functions.
-/

namespace GTRacer

/-- Model of clamp from src/utils/math.ts: Math.max(min, Math.min(max, value)). -/
def clamp {α : Type} [LinearOrder α] (value lo hi : α) : α :=
  max lo (min hi value)

/-- Model of lerp from src/utils/math.ts: a + (b - a) * t. -/
def lerp {α : Type} [Ring α] (a b t : α) : α :=
  a + (b - a) * t

/-- Model of remap from src/utils/math.ts: linear remap of value from
the input range to the output range, with the interpolation parameter
clamped to the unit interval. -/
def remap (value inMin inMax outMin outMax : ℚ) : ℚ :=
  let t := (value - inMin) / (inMax - inMin)
  lerp outMin outMax (clamp t 0 1)

/-- Model of computeRubberBandModifier from the AI rubber-banding module:
ahead of the player the modifier is a penalty remapped from 0.97 down to
0.92; behind the player it is a boost remapped from 1.03 up to 1.08 and
scaled by a distance factor clamped to the unit interval; at equal
positions it is exactly 1. -/
def computeRubberBandModifier (aiPosition playerPosition totalRacers distanceBehindPlayer : ℚ) : ℚ :=
  if aiPosition < playerPosition then
    remap (playerPosition - aiPosition) 1 totalRacers 0.97 0.92
  else if playerPosition < aiPosition then
    let catchUpFactor := remap (aiPosition - playerPosition) 1 totalRacers 1.03 1.08
    let distFactor := clamp (distanceBehindPlayer / 100) 0 1
    1 + (catchUpFactor - 1) * distFactor
  else 1

/-- Rational 3D vector, the model of THREE.Vector3 for the spline module,
whose curve math is purely rational. -/
structure Vec3Q where
  x : ℚ
  y : ℚ
  z : ℚ
  deriving DecidableEq

/-- Truncating integer part, matching the JavaScript remainder operator sign
convention (the result takes the sign of the dividend). -/
def jsTrunc (q : ℚ) : ℤ :=
  if 0 ≤ q then ⌊q⌋ else -⌊-q⌋

/-- Model of the JavaScript % operator on numbers: a - b * trunc(a / b). -/
def jsMod (a b : ℚ) : ℚ :=
  a - b * jsTrunc (a / b)

/-- Model of the CatmullRomSpline state: the stored control points and the
closed-loop flag. The cached per-segment arc lengths and total length are
modelled by the derived functions segmentLength and getTotalLength below,
since the spline is immutable after construction. -/
structure CatmullRomSpline where
  points : List Vec3Q
  closed : Bool

/-- Model of the CatmullRomSpline constructor. It performs no validation of
the number of control points: it stores the points and the closed flag and
precomputes the segment lengths. No execution path in the constructor can
fault: the computeLengths loop runs over the segment count (zero iterations
when the list is empty or a single open point) and every point index used by
interpolateRaw is wrapped into range whenever the point list is nonempty. -/
def mkCatmullRomSpline (points : List Vec3Q) (closed : Bool) : CatmullRomSpline :=
  ⟨points, closed⟩

/-- Point lookup with the double-wrapped index ((i % n) + n) % n used by
interpolateRaw for the point before the segment start; % is the JavaScript
truncating remainder. -/
def getWrapped (points : List Vec3Q) (i : ℤ) : Vec3Q :=
  let n : ℤ := points.length
  points.getD ((Int.tmod i n + n).tmod n).toNat ⟨0, 0, 0⟩

/-- Point lookup with the singly wrapped index i % n used by interpolateRaw
for the segment start and the two following points. -/
def getMod (points : List Vec3Q) (i : ℤ) : Vec3Q :=
  points.getD (Int.tmod i points.length).toNat ⟨0, 0, 0⟩

/-- Model of CatmullRomSpline.interpolateRaw: the Catmull-Rom blend of the
four control points surrounding the given segment at local parameter t. -/
def interpolateRaw (sp : CatmullRomSpline) (segment : ℤ) (t : ℚ) : Vec3Q :=
  let p0 := getWrapped sp.points (segment - 1)
  let p1 := getMod sp.points segment
  let p2 := getMod sp.points (segment + 1)
  let p3 := getMod sp.points (segment + 2)
  let t2 := t * t
  let t3 := t2 * t
  ⟨0.5 * ((2 * p1.x) + (-p0.x + p2.x) * t + (2 * p0.x - 5 * p1.x + 4 * p2.x - p3.x) * t2 +
      (-p0.x + 3 * p1.x - 3 * p2.x + p3.x) * t3),
   0.5 * ((2 * p1.y) + (-p0.y + p2.y) * t + (2 * p0.y - 5 * p1.y + 4 * p2.y - p3.y) * t2 +
      (-p0.y + 3 * p1.y - 3 * p2.y + p3.y) * t3),
   0.5 * ((2 * p1.z) + (-p0.z + p2.z) * t + (2 * p0.z - 5 * p1.z + 4 * p2.z - p3.z) * t2 +
      (-p0.z + 3 * p1.z - 3 * p2.z + p3.z) * t3)⟩

/-- Model of CatmullRomSpline.interpolate: wrap (closed) or clamp (open) the
normalized parameter, pick the segment by flooring, and blend. Reading past
the segment table returns the last stored point; the out-of-range default of
the list lookup is never reached for a nonempty point list. -/
def interpolate (sp : CatmullRomSpline) (t : ℚ) : Vec3Q :=
  let t1 := if sp.closed then jsMod (jsMod t 1 + 1) 1 else max 0 (min 1 t)
  let segments : ℤ := if sp.closed then sp.points.length else sp.points.length - 1
  let scaled := t1 * (segments : ℚ)
  let segment := ⌊scaled⌋
  let localT := scaled - (segment : ℚ)
  if segments ≤ segment then sp.points.getLastD ⟨0, 0, 0⟩
  else interpolateRaw sp segment localT

/-- Euclidean distance between two rational points, real-valued. -/
noncomputable def distQ (a b : Vec3Q) : ℝ :=
  Real.sqrt (((a.x - b.x) * (a.x - b.x) + (a.y - b.y) * (a.y - b.y) +
    (a.z - b.z) * (a.z - b.z) : ℚ) : ℝ)

/-- Model of one segment of CatmullRomSpline.computeLengths: the sum of the
20 chord lengths sampled uniformly across the segment. -/
noncomputable def segmentLength (sp : CatmullRomSpline) (i : ℕ) : ℝ :=
  ((List.range 20).map (fun s =>
    distQ (interpolateRaw sp i ((s : ℚ) / 20)) (interpolateRaw sp i (((s : ℚ) + 1) / 20)))).sum

/-- Model of CatmullRomSpline.getTotalLength: the cached sum of the segment
lengths computed at construction. -/
noncomputable def getTotalLength (sp : CatmullRomSpline) : ℝ :=
  ((List.range (if sp.closed then sp.points.length else sp.points.length - 1)).map
    (fun i => segmentLength sp i)).sum

noncomputable section PhysicsReals

open scoped Classical

/-- Model of SuspensionConfig from src/physics/types.ts. The damper velocity
bound is optional in the config and defaults to 4.0 in computeForce. -/
structure SuspensionConfig where
  springRate : ℝ
  dampingRate : ℝ
  restLength : ℝ
  maxTravel : ℝ
  maxDamperVelocity : Option ℝ

/-- Model of SuspensionModel.computeForce: zero for non-positive compression;
otherwise the spring force on the compression clamped to maxTravel plus the
damper force on the velocity clamped to the damper velocity bound, floored
at zero. -/
def SuspensionModel.computeForce (cfg : SuspensionConfig) (compression compressionVelocity : ℝ) : ℝ :=
  if compression ≤ 0 then 0
  else
    let clampedCompression := min compression cfg.maxTravel
    let springForce := cfg.springRate * clampedCompression
    let maxVel := cfg.maxDamperVelocity.getD 4.0
    let damperForce := cfg.dampingRate * clamp compressionVelocity (-maxVel) maxVel
    max 0 (springForce + damperForce)

/-- Model of SuspensionModel.getRayLength: rest length plus maximum travel. -/
def SuspensionModel.getRayLength (cfg : SuspensionConfig) : ℝ :=
  cfg.restLength + cfg.maxTravel

/-- Model of WheelConfig (tire parameters) from src/physics/types.ts. -/
structure WheelConfig where
  peakGrip : ℝ
  stiffness : ℝ
  shape : ℝ
  radius : ℝ

/-- Model of TireModel.computeLateralForce: the Pacejka-style curve
D * sin(C * atan(B * slipAngle)) with D = peakGrip * normalForce,
B = stiffness, C = shape. -/
def TireModel.computeLateralForce (cfg : WheelConfig) (slipAngle normalForce : ℝ) : ℝ :=
  cfg.peakGrip * normalForce * Real.sin (cfg.shape * Real.arctan (cfg.stiffness * slipAngle))

/-- Model of TireModel.computeLongitudinalForce: the same curve applied to
the slip ratio. -/
def TireModel.computeLongitudinalForce (cfg : WheelConfig) (slipRatio normalForce : ℝ) : ℝ :=
  cfg.peakGrip * normalForce * Real.sin (cfg.shape * Real.arctan (cfg.stiffness * slipRatio))

/-- Model of TireModel.computeCombinedForces: both slip forces computed
independently, then scaled down by maxForce / totalForce when the vector
magnitude exceeds the friction-circle limit peakGrip * normalForce. -/
def TireModel.computeCombinedForces (cfg : WheelConfig) (slipAngle slipRatio normalForce : ℝ) :
    ℝ × ℝ :=
  let lateral := TireModel.computeLateralForce cfg slipAngle normalForce
  let longitudinal := TireModel.computeLongitudinalForce cfg slipRatio normalForce
  let maxForce := cfg.peakGrip * normalForce
  let totalForce := Real.sqrt (lateral * lateral + longitudinal * longitudinal)
  if maxForce < totalForce ∧ 0 < totalForce then
    (lateral * (maxForce / totalForce), longitudinal * (maxForce / totalForce))
  else (lateral, longitudinal)

/-- Model of AeroConfig from src/physics/types.ts. -/
structure AeroConfig where
  dragCoefficient : ℝ
  frontalArea : ℝ
  downforceCoefficient : ℝ

/-- Air density constant from src/utils/constants.ts. -/
def AIR_DENSITY : ℝ := 1.225

/-- Model of AerodynamicsModel.computeDragForce: quadratic drag. -/
def AerodynamicsModel.computeDragForce (cfg : AeroConfig) (speed : ℝ) : ℝ :=
  0.5 * AIR_DENSITY * cfg.dragCoefficient * cfg.frontalArea * speed * speed

/-- Model of AerodynamicsModel.computeDownforce: quadratic downforce. -/
def AerodynamicsModel.computeDownforce (cfg : AeroConfig) (speed : ℝ) : ℝ :=
  0.5 * AIR_DENSITY * cfg.downforceCoefficient * cfg.frontalArea * speed * speed

/-- Model of EngineConfig from src/physics/types.ts. -/
structure EngineConfig where
  torqueCurve : List (ℝ × ℝ)
  idleRpm : ℝ
  redlineRpm : ℝ
  maxRpm : ℝ

/-- Model of TransmissionConfig from src/physics/types.ts. -/
structure TransmissionConfig where
  gearRatios : List ℝ
  reverseRatio : ℝ
  finalDrive : ℝ
  drivetrainLoss : ℝ

/-- Model of the bracket-search loop inside Drivetrain.getEngineTorque: scan
consecutive sample pairs and linearly interpolate inside the first bracket
containing the rpm; the source returns 0 if no bracket matches. -/
def torqueLoop (rpm : ℝ) : List (ℝ × ℝ) → ℝ
  | p :: q :: rest =>
    if p.1 ≤ rpm ∧ rpm ≤ q.1 then lerp p.2 q.2 ((rpm - p.1) / (q.1 - p.1))
    else torqueLoop rpm (q :: rest)
  | _ => 0

/-- The last sample of a nonempty torque curve: curve[curve.length - 1]. -/
def lastSample (p : ℝ × ℝ) : List (ℝ × ℝ) → ℝ × ℝ
  | [] => p
  | q :: rest => lastSample q rest

/-- Model of Drivetrain.getEngineTorque: clamp at the table extremes, else
linearly interpolate between the bracketing samples. The source faults on an
empty torque table (it reads the first entry unconditionally); the empty case
is modelled as 0 and is not exercised by any claim. -/
def getEngineTorque (curve : List (ℝ × ℝ)) (rpm : ℝ) : ℝ :=
  match curve with
  | [] => 0
  | p :: rest =>
    if rpm ≤ p.1 then p.2
    else if (lastSample p rest).1 ≤ rpm then (lastSample p rest).2
    else torqueLoop rpm (p :: rest)

/-- Model of the Drivetrain mutable state: configs, gear index (-1 reverse,
0 neutral, 1..N forward), continuous rpm, and the auto-shift cooldown. -/
structure Drivetrain where
  engineConfig : EngineConfig
  transConfig : TransmissionConfig
  currentGear : ℤ
  rpm : ℝ
  shiftCooldown : ℝ

/-- Model of the Drivetrain constructor: gear 1, rpm at idle, no cooldown. -/
def mkDrivetrain (e : EngineConfig) (t : TransmissionConfig) : Drivetrain :=
  { engineConfig := e, transConfig := t, currentGear := 1, rpm := e.idleRpm, shiftCooldown := 0 }

/-- Model of Drivetrain.getCurrentGearRatio. The source indexes the gear
table directly with currentGear - 1; the out-of-range default 0 here is
unreachable while the gear invariant holds. -/
def getCurrentGearRatio (d : Drivetrain) : ℝ :=
  if d.currentGear = -1 then d.transConfig.reverseRatio
  else if d.currentGear = 0 then 0
  else d.transConfig.gearRatios.getD (d.currentGear - 1).toNat 0

/-- Model of Drivetrain.getTotalRatio: gear ratio times final drive. -/
def getTotalRatio (d : Drivetrain) : ℝ :=
  getCurrentGearRatio d * d.transConfig.finalDrive

/-- Model of Drivetrain.getWheelTorque: engine torque at the current rpm
scaled by throttle, total ratio and drivetrain efficiency. -/
def getWheelTorque (d : Drivetrain) (throttle : ℝ) : ℝ :=
  getEngineTorque d.engineConfig.torqueCurve d.rpm * throttle * getTotalRatio d *
    (1 - d.transConfig.drivetrainLoss)

/-- Model of Drivetrain.updateRpm: when the total ratio is near zero the rpm
snaps to idle; otherwise the target rpm is derived from the wheel angular
velocity, floored at idle, boosted near idle under throttle, and clamped to
the idle..max band. The dt argument is unused in the source as well. -/
def updateRpm (d : Drivetrain) (wheelAngularVelocity throttle dt : ℝ) : Drivetrain :=
  let totalRatio := |getTotalRatio d|
  if totalRatio < 0.001 then { d with rpm := d.engineConfig.idleRpm }
  else
    let wheelRpm := |wheelAngularVelocity| * (60 / (2 * Real.pi))
    let targetRpm := wheelRpm * totalRatio
    let idleRpm := d.engineConfig.idleRpm
    let r1 := max idleRpm targetRpm
    let r2 :=
      if 0 < throttle ∧ r1 < idleRpm + 500 then max r1 (idleRpm + throttle * 1500) else r1
    { d with rpm := clamp r2 idleRpm d.engineConfig.maxRpm }

/-- Model of Drivetrain.findPeakPowerRpm: linear scan of the torque curve in
100-rpm steps from idle to max, tracking the rpm of maximum torque * rpm;
the accumulator starts at power 0 with the redline rpm as fallback. -/
def findPeakPowerRpm (e : EngineConfig) : ℝ :=
  let steps := if e.idleRpm ≤ e.maxRpm then ⌊(e.maxRpm - e.idleRpm) / 100⌋₊ + 1 else 0
  (((List.range steps).map (fun k => e.idleRpm + 100 * (k : ℝ))).foldl
    (fun acc rpm =>
      let power := getEngineTorque e.torqueCurve rpm * rpm
      if acc.1 < power then (power, rpm) else acc)
    ((0 : ℝ), e.redlineRpm)).2

/-- Model of Drivetrain.updateAutoShift: tick the cooldown down; when free,
shift up above 95 percent of the peak-power rpm if a higher gear exists, and
shift down below 40 percent if a lower forward gear exists, re-arming the
0.3 second cooldown on every shift. -/
def updateAutoShift (d : Drivetrain) (dt : ℝ) : Drivetrain :=
  let d1 := { d with shiftCooldown := max 0 (d.shiftCooldown - dt) }
  if 0 < d1.shiftCooldown then d1
  else
    let peakPowerRpm := findPeakPowerRpm d1.engineConfig
    if peakPowerRpm * 0.95 < d1.rpm ∧
        d1.currentGear < (d1.transConfig.gearRatios.length : ℤ) then
      { d1 with currentGear := d1.currentGear + 1, shiftCooldown := 0.3 }
    else if d1.rpm < peakPowerRpm * 0.4 ∧ 1 < d1.currentGear then
      { d1 with currentGear := d1.currentGear - 1, shiftCooldown := 0.3 }
    else d1

/-- Model of Drivetrain.setGear: clamp the requested gear to -1..gear count. -/
def setGear (d : Drivetrain) (gear : ℤ) : Drivetrain :=
  { d with currentGear := clamp gear (-1) (d.transConfig.gearRatios.length : ℤ) }

/-- The Drivetrain state invariant of claim C10: rpm within the idle..max
band and gear index within -1..gear count. -/
def DrivetrainInv (d : Drivetrain) : Prop :=
  d.engineConfig.idleRpm ≤ d.rpm ∧ d.rpm ≤ d.engineConfig.maxRpm ∧
  -1 ≤ d.currentGear ∧ d.currentGear ≤ (d.transConfig.gearRatios.length : ℤ)

/-- One Drivetrain mutation, used to state preservation under arbitrary
operation sequences. -/
inductive DrivetrainOp where
  | updRpm (wheelAngularVelocity throttle dt : ℝ)
  | autoShift (dt : ℝ)
  | shift (gear : ℤ)

/-- Apply one Drivetrain mutation. -/
def applyDrivetrainOp (d : Drivetrain) : DrivetrainOp → Drivetrain
  | .updRpm ω th dt => updateRpm d ω th dt
  | .autoShift dt => updateAutoShift d dt
  | .shift g => setGear d g

/-- Real 3D vector, the model of THREE.Vector3 in the vehicle controller. -/
structure Vec3 where
  x : ℝ
  y : ℝ
  z : ℝ

/-- Quaternion, the model of THREE.Quaternion. -/
structure Quat where
  x : ℝ
  y : ℝ
  z : ℝ
  w : ℝ

/-- Vector addition. -/
def vadd (a b : Vec3) : Vec3 := ⟨a.x + b.x, a.y + b.y, a.z + b.z⟩

/-- Scalar multiple of a vector (THREE.Vector3.multiplyScalar). -/
def vscale (k : ℝ) (v : Vec3) : Vec3 := ⟨k * v.x, k * v.y, k * v.z⟩

/-- Dot product. -/
def vdot (a b : Vec3) : ℝ := a.x * b.x + a.y * b.y + a.z * b.z

/-- Cross product. -/
def vcross (a b : Vec3) : Vec3 :=
  ⟨a.y * b.z - a.z * b.y, a.z * b.x - a.x * b.z, a.x * b.y - a.y * b.x⟩

/-- Vector length (THREE.Vector3.length). -/
def vlength (v : Vec3) : ℝ := Real.sqrt (vdot v v)

/-- Model of THREE.Vector3.normalize, which divides by length or 1, so the
zero vector normalizes to itself. -/
def vnormalize (v : Vec3) : Vec3 :=
  let len := vlength v
  vscale (1 / (if len = 0 then 1 else len)) v

/-- Model of THREE.Vector3.applyQuaternion: v + w * t + q x t with
t = 2 (q x v), for a unit quaternion q. -/
def quatApply (q : Quat) (v : Vec3) : Vec3 :=
  let qv : Vec3 := ⟨q.x, q.y, q.z⟩
  let t := vscale 2 (vcross qv v)
  vadd v (vadd (vscale q.w t) (vcross qv t))

/-- Model of THREE.Quaternion.setFromAxisAngle for a normalized axis. -/
def quatFromAxisAngle (axis : Vec3) (angle : ℝ) : Quat :=
  let h := angle / 2
  let s := Real.sin h
  ⟨axis.x * s, axis.y * s, axis.z * s, Real.cos h⟩

/-- Model of Math.atan2. -/
def atan2 (y x : ℝ) : ℝ :=
  if 0 < x then Real.arctan (y / x)
  else if x < 0 then
    if 0 ≤ y then Real.arctan (y / x) + Real.pi else Real.arctan (y / x) - Real.pi
  else if 0 < y then Real.pi / 2
  else if y < 0 then -(Real.pi / 2)
  else 0

/-- Model of DimensionsConfig from src/physics/types.ts. -/
structure DimensionsConfig where
  wheelbase : ℝ
  trackWidth : ℝ
  cgHeight : ℝ

/-- Model of the physical part of VehicleConfig from src/physics/types.ts.
Cosmetic metadata (name, tier, price, color, body type) plays no role in the
claims and is omitted. -/
structure VehicleConfig where
  mass : ℝ
  engine : EngineConfig
  transmission : TransmissionConfig
  suspensionFront : SuspensionConfig
  suspensionRear : SuspensionConfig
  tiresFront : WheelConfig
  tiresRear : WheelConfig
  aero : AeroConfig
  dimensions : DimensionsConfig

/-- Model of the per-wheel definition built in the VehicleController
constructor. -/
structure WheelDefinition where
  position : Vec3
  suspension : SuspensionConfig
  tire : WheelConfig
  isDriven : Bool
  isSteered : Bool

/-- Model of WheelState from src/physics/types.ts. -/
structure WheelState where
  compression : ℝ
  compressionVelocity : ℝ
  angularVelocity : ℝ
  slipRatio : ℝ
  slipAngle : ℝ
  onGround : Bool
  suspensionForce : ℝ
  lateralForce : ℝ
  longitudinalForce : ℝ
  contactPoint : Vec3
  visualPosition : Vec3

/-- Model of VehicleState from src/physics/types.ts. -/
structure VehicleState where
  speed : ℝ
  speedKmh : ℝ
  rpm : ℝ
  gear : ℤ
  throttle : ℝ
  brake : ℝ
  steering : ℝ
  handbrake : Bool
  wheels : List WheelState
  position : Vec3
  rotation : Quat
  velocity : Vec3
  angularVelocity : Vec3

/-- Model of InputState from src/physics/types.ts. -/
structure InputState where
  throttle : ℝ
  brake : ℝ
  steering : ℝ
  handbrake : Bool

/-- The readback surface of the external rigid body: translation, rotation
and linear velocity. -/
structure Body where
  translation : Vec3
  rotation : Quat
  linvel : Vec3

/-- A ray-cast hit from the external collision world. -/
structure Hit where
  timeOfImpact : ℝ

/-- The external collision world, modelled by its ray-cast query (origin,
direction, max length; the self-exclusion argument is implicit in the
query function). -/
structure World where
  castRay : Vec3 → Vec3 → ℝ → Option Hit

/-- The driving-assist toggles. -/
structure Assists where
  tractionControl : Bool
  abs : Bool
  steeringAssist : Bool

/-- A force command issued to the external rigid body during one update:
either a force at a world point or a whole-body force. -/
inductive ForceCmd where
  | atPoint (force point : Vec3)
  | whole (force : Vec3)

/-- Model of the VehicleController state. The rapier handle of the source is
only used to build the ray object passed to the world query and is subsumed
by the castRay model. -/
structure VehicleController where
  config : VehicleConfig
  drivetrain : Drivetrain
  wheels : List WheelDefinition
  wheelStates : List WheelState
  chassisBody : Option Body
  world : Option World
  assists : Assists

/-- Fixed maximum steering angle of the controller (radians). -/
def maxSteerAngle : ℝ := 0.5

/-- Fixed pedal brake torque constant of the controller. -/
def brakeForce : ℝ := 8000

/-- Fixed handbrake torque constant of the controller. -/
def handbrakeForce : ℝ := 12000

/-- The initial all-zero wheel state created by the constructor. -/
def initWheelState : WheelState :=
  { compression := 0, compressionVelocity := 0, angularVelocity := 0, slipRatio := 0,
    slipAngle := 0, onGround := false, suspensionForce := 0, lateralForce := 0,
    longitudinalForce := 0, contactPoint := ⟨0, 0, 0⟩, visualPosition := ⟨0, 0, 0⟩ }

/-- Model of the VehicleController constructor: front wheels steered, rear
wheels driven, positioned from half wheelbase and half track width; all-zero
wheel states; no body or world attached; assists off. -/
def mkVehicleController (config : VehicleConfig) : VehicleController :=
  let halfWheelbase := config.dimensions.wheelbase / 2
  let halfTrack := config.dimensions.trackWidth / 2
  { config := config
    drivetrain := mkDrivetrain config.engine config.transmission
    wheels :=
      [ { position := ⟨-halfTrack, 0, halfWheelbase⟩, suspension := config.suspensionFront,
          tire := config.tiresFront, isDriven := false, isSteered := true },
        { position := ⟨halfTrack, 0, halfWheelbase⟩, suspension := config.suspensionFront,
          tire := config.tiresFront, isDriven := false, isSteered := true },
        { position := ⟨-halfTrack, 0, -halfWheelbase⟩, suspension := config.suspensionRear,
          tire := config.tiresRear, isDriven := true, isSteered := false },
        { position := ⟨halfTrack, 0, -halfWheelbase⟩, suspension := config.suspensionRear,
          tire := config.tiresRear, isDriven := true, isSteered := false } ]
    wheelStates := [initWheelState, initWheelState, initWheelState, initWheelState]
    chassisBody := none
    world := none
    assists := { tractionControl := false, abs := false, steeringAssist := false } }

/-- Model of VehicleController.setChassisBody. -/
def setChassisBody (c : VehicleController) (body : Body) (world : World) : VehicleController :=
  { c with chassisBody := some body, world := some world }

/-- Model of VehicleController.setAssists. -/
def setAssists (c : VehicleController) (assists : Assists) : VehicleController :=
  { c with assists := assists }

/-- Model of VehicleController.getState: a fresh snapshot. Before a body is
attached every body readback falls back to the same defaults a resting body
at the origin would produce. -/
def getState (c : VehicleController) : VehicleState :=
  let velocity := match c.chassisBody with | some b => b.linvel | none => (⟨0, 0, 0⟩ : Vec3)
  let speed := vlength velocity
  { speed := speed, speedKmh := speed * 3.6, rpm := c.drivetrain.rpm,
    gear := c.drivetrain.currentGear, throttle := 0, brake := 0, steering := 0,
    handbrake := false, wheels := c.wheelStates,
    position := match c.chassisBody with | some b => b.translation | none => ⟨0, 0, 0⟩,
    rotation := match c.chassisBody with | some b => b.rotation | none => ⟨0, 0, 0, 1⟩,
    velocity := velocity, angularVelocity := ⟨0, 0, 0⟩ }

/-- Model of the brake torque selection inside VehicleController.update:
pedal torque scaled by the pedal value (halved by ABS when the wheel is near
locking), then overridden by the fixed handbrake torque on non-steered
wheels when the handbrake is pulled. -/
def brakeTorqueOf (absAssist handbrake isSteered : Bool) (effectiveBrake slipRatio : ℝ) : ℝ :=
  let pedalTorque :=
    if 0 < effectiveBrake then
      if absAssist = true ∧ 0.12 < |slipRatio| then brakeForce * effectiveBrake * 0.5
      else brakeForce * effectiveBrake
    else 0
  if handbrake = true ∧ isSteered = false then handbrakeForce else pedalTorque

/-- Model of the signed brake force scalar applied along the wheel forward
direction inside VehicleController.update: the brake torque clipped to the
friction limit, given the sign opposing the longitudinal wheel speed, and
multiplied by the effective pedal brake value. -/
def brakeAppliedForce (absAssist handbrake isSteered : Bool)
    (effectiveBrake slipRatio normalForce peakGrip wheelSpeedLong : ℝ) : ℝ :=
  let brakeTorque := brakeTorqueOf absAssist handbrake isSteered effectiveBrake slipRatio
  if 0 < brakeTorque then
    let brakeForceLong := min brakeTorque (normalForce * peakGrip)
    let brakeDir : ℝ := if 0 < wheelSpeedLong then -1 else 1
    brakeDir * brakeForceLong * effectiveBrake
  else 0

/-- The airborne wheel baseline of VehicleController.update: all forces and
slips reset, visual position at full suspension extension; angular velocity
and contact point are left as they were, matching the source. -/
def airborneState (wheel : WheelDefinition) (ws : WheelState) : WheelState :=
  { ws with
    onGround := false, compression := 0, compressionVelocity := 0,
    suspensionForce := 0, lateralForce := 0, longitudinalForce := 0,
    slipRatio := 0, slipAngle := 0,
    visualPosition :=
      ⟨wheel.position.x, wheel.position.y - wheel.suspension.restLength, wheel.position.z⟩ }

/-- Model of the per-wheel body of the loop in VehicleController.update:
ray cast, suspension solve, steering basis, slip computation, combined tire
force (of which only the lateral component is applied as a world force, as
in the source), brake force, and the back-derived wheel angular velocity. -/
def processWheel (assists : Assists) (input : InputState) (dt : ℝ)
    (chassisPos : Vec3) (chassisQuat : Quat) (chassisUp chassisForward chassisRight velocity : Vec3)
    (effectiveSteering effectiveBrake : ℝ) (world : World)
    (wheel : WheelDefinition) (ws : WheelState) : WheelState × List ForceCmd :=
  let wheelWorldPos := vadd (quatApply chassisQuat wheel.position) chassisPos
  let rayDir := vscale (-1) chassisUp
  let rayLength := SuspensionModel.getRayLength wheel.suspension + wheel.tire.radius
  match world.castRay wheelWorldPos rayDir rayLength with
  | none => (airborneState wheel ws, [])
  | some hit =>
    if hit.timeOfImpact < rayLength then
      let hitDist := hit.timeOfImpact
      let compression := SuspensionModel.getRayLength wheel.suspension + wheel.tire.radius - hitDist
      let compressionVelocity := (compression - ws.compression) / dt
      let comp := max 0 compression
      let suspForce := SuspensionModel.computeForce wheel.suspension comp compressionVelocity
      let contactWorldPos := vadd wheelWorldPos (vscale hitDist rayDir)
      let suspCmd := ForceCmd.atPoint (vscale suspForce chassisUp) wheelWorldPos
      let steerQuat := quatFromAxisAngle chassisUp (effectiveSteering * maxSteerAngle)
      let wheelForward := if wheel.isSteered then quatApply steerQuat chassisForward else chassisForward
      let wheelRight := if wheel.isSteered then quatApply steerQuat chassisRight else chassisRight
      let wheelSpeedLong := vdot velocity wheelForward
      let wheelSpeedLat := vdot velocity wheelRight
      let tireCircumSpeed := ws.angularVelocity * wheel.tire.radius
      let slipRatio :=
        if 0.5 < |wheelSpeedLong| ∨ 0.5 < |tireCircumSpeed| then
          clamp ((tireCircumSpeed - wheelSpeedLong) / max |wheelSpeedLong| |tireCircumSpeed|) (-1) 1
        else 0
      let slipAngle := if 1 < |wheelSpeedLong| then atan2 wheelSpeedLat |wheelSpeedLong| else 0
      let forces := TireModel.computeCombinedForces wheel.tire slipAngle slipRatio suspForce
      let latCmd := ForceCmd.atPoint (vscale (-forces.1) wheelRight) contactWorldPos
      let brakeCmds :=
        if 0 < brakeTorqueOf assists.abs input.handbrake wheel.isSteered effectiveBrake slipRatio then
          [ForceCmd.atPoint
            (vscale (brakeAppliedForce assists.abs input.handbrake wheel.isSteered effectiveBrake
              slipRatio suspForce wheel.tire.peakGrip wheelSpeedLong) wheelForward)
            contactWorldPos]
        else []
      let angularVelocity := wheelSpeedLong / wheel.tire.radius
      ({ compression := comp, compressionVelocity := compressionVelocity,
         angularVelocity := angularVelocity, slipRatio := slipRatio, slipAngle := slipAngle,
         onGround := true, suspensionForce := suspForce, lateralForce := forces.1,
         longitudinalForce := forces.2, contactPoint := contactWorldPos,
         visualPosition :=
           ⟨wheel.position.x, wheel.position.y - (wheel.suspension.restLength - comp),
            wheel.position.z⟩ },
       [suspCmd, latCmd] ++ brakeCmds)
    else (airborneState wheel ws, [])

/-- Model of the attached-body part of VehicleController.update: the chassis
frame and velocity readback, steering assist, per-wheel solve, traction
control, drivetrain rpm and auto-shift update, drive force distribution,
drag and downforce; the result is the new controller state and the force
commands issued to the external body. -/
def updateWithBody (c : VehicleController) (body : Body) (world : World)
    (input : InputState) (dt : ℝ) : VehicleController × List ForceCmd :=
  let chassisPos := body.translation
  let chassisQuat := body.rotation
  let chassisUp := quatApply chassisQuat ⟨0, 1, 0⟩
  let chassisForward := quatApply chassisQuat ⟨0, 0, 1⟩
  let chassisRight := quatApply chassisQuat ⟨1, 0, 0⟩
  let velocity := body.linvel
  let speed := vlength velocity
  let effectiveBrake := input.brake
  let effectiveSteering :=
    if c.assists.steeringAssist then input.steering * (1 - min (speed * 3.6 / 108) 1 * 0.6)
    else input.steering
  let results := List.zipWith
    (processWheel c.assists input dt chassisPos chassisQuat chassisUp chassisForward
      chassisRight velocity effectiveSteering effectiveBrake world)
    c.wheels c.wheelStates
  let newStates := results.map Prod.fst
  let wheelCmds := (results.map Prod.snd).flatten
  let drivenPairs := (c.wheels.zip newStates).filter (fun p => p.1.isDriven)
  let drivenCount := drivenPairs.length
  let sumAngVel := drivenPairs.foldl (fun a p => a + p.2.angularVelocity) 0
  let avgDrivenWheelAngVel := if 0 < drivenCount then sumAngVel / (drivenCount : ℝ) else sumAngVel
  let maxDrivenSlip := drivenPairs.foldl (fun m p => max m |p.2.slipRatio|) 0
  let effectiveThrottle :=
    if c.assists.tractionControl = true ∧ 0 < input.throttle ∧ 0.15 < maxDrivenSlip then
      input.throttle * 0.3
    else input.throttle
  let d1 := updateRpm c.drivetrain avgDrivenWheelAngVel effectiveThrottle dt
  let d2 := updateAutoShift d1 dt
  let driveCmds :=
    if 0 < effectiveThrottle then
      let wheelTorque := getWheelTorque d2 effectiveThrottle
      ((c.wheels.zip newStates).filter (fun p => p.1.isDriven && p.2.onGround)).map (fun p =>
        let driveForce := wheelTorque / p.1.tire.radius / (drivenCount : ℝ)
        let wheelForward :=
          if p.1.isSteered then
            quatApply (quatFromAxisAngle chassisUp (effectiveSteering * maxSteerAngle))
              chassisForward
          else chassisForward
        ForceCmd.atPoint (vscale driveForce wheelForward) p.2.contactPoint)
    else []
  let dragForce := AerodynamicsModel.computeDragForce c.config.aero speed
  let dragCmds :=
    if 0.1 < speed then [ForceCmd.whole (vscale (-dragForce) (vnormalize velocity))] else []
  let downCmds := [ForceCmd.whole ⟨0, -(AerodynamicsModel.computeDownforce c.config.aero speed), 0⟩]
  ({ c with wheelStates := newStates, drivetrain := d2 },
    wheelCmds ++ driveCmds ++ dragCmds ++ downCmds)

/-- Model of VehicleController.update: the early return when no chassis body
or world reference has been attached, otherwise the full simulation step. -/
def update (c : VehicleController) (input : InputState) (dt : ℝ) :
    VehicleController × List ForceCmd :=
  match c.chassisBody, c.world with
  | some body, some world => updateWithBody c body world input dt
  | _, _ => (c, [])

/-- Concrete suspension configuration used to instantiate the theorems. -/
def sampleSuspensionConfig : SuspensionConfig :=
  { springRate := 30000, dampingRate := 4000, restLength := 0.3, maxTravel := 0.03,
    maxDamperVelocity := none }

/-- Concrete tire configuration used to instantiate the theorems. -/
def sampleWheelConfig : WheelConfig :=
  { peakGrip := 1, stiffness := 10, shape := 1.9, radius := 0.3 }

/-- Concrete engine configuration used to instantiate the theorems. -/
def sampleEngineConfig : EngineConfig :=
  { torqueCurve := [(1000, 100), (4000, 250), (7000, 180)], idleRpm := 1000,
    redlineRpm := 6500, maxRpm := 7000 }

/-- Concrete transmission configuration used to instantiate the theorems. -/
def sampleTransmissionConfig : TransmissionConfig :=
  { gearRatios := [3.2, 2.1, 1.5, 1.1, 0.9], reverseRatio := 3.0, finalDrive := 3.7,
    drivetrainLoss := 0.15 }

/-- A transmission with an empty gear table (no forward gears). -/
def emptyGearboxConfig : TransmissionConfig :=
  { gearRatios := [], reverseRatio := 3.0, finalDrive := 3.7, drivetrainLoss := 0.15 }

/-- Concrete vehicle configuration used to instantiate the theorems. -/
def sampleVehicleConfig : VehicleConfig :=
  { mass := 1200, engine := sampleEngineConfig, transmission := sampleTransmissionConfig,
    suspensionFront := sampleSuspensionConfig, suspensionRear := sampleSuspensionConfig,
    tiresFront := sampleWheelConfig, tiresRear := sampleWheelConfig,
    aero := { dragCoefficient := 0.3, frontalArea := 2.2, downforceCoefficient := 0.1 },
    dimensions := { wheelbase := 2.6, trackWidth := 1.6, cgHeight := 0.5 } }

end PhysicsReals

end GTRacer

open GTRacer

/-- Helper: clamp is monotone in its value argument. -/
lemma clamp_mono {α : Type} [LinearOrder α] {x y lo hi : α} (h : x ≤ y) :
    clamp x lo hi ≤ clamp y lo hi :=
  max_le_max le_rfl (min_le_min le_rfl h)

/-- Helper: the lower clamp bound is respected. -/
lemma le_clamp {α : Type} [LinearOrder α] (x lo hi : α) : lo ≤ clamp x lo hi :=
  le_max_left _ _

/-- Helper: lerp is monotone in t when the endpoints are ordered. -/
lemma lerp_mono {a b s t : ℚ} (hab : a ≤ b) (hst : s ≤ t) :
    lerp a b s ≤ lerp a b t := by
  unfold lerp
  have hba : 0 ≤ b - a := by linarith
  nlinarith [mul_le_mul_of_nonneg_left hst hba]

/-- Helper: remap is monotone in its value argument when the input range is
increasing and the output range is increasing. -/
lemma remap_mono {v w inMin inMax outMin outMax : ℚ}
    (hin : inMin < inMax) (hout : outMin ≤ outMax) (hvw : v ≤ w) :
    remap v inMin inMax outMin outMax ≤ remap w inMin inMax outMin outMax := by
  unfold remap
  refine lerp_mono hout (clamp_mono ?_)
  have hd : 0 < inMax - inMin := by linarith
  exact (div_le_div_iff_of_pos_right hd).mpr (by linarith)

/-- C4 counterexample: the scenario computeRubberBandModifier(3, 1, 6, 50)
does take the boost branch, but the code returns exactly 1.02, not
approximately 1.025, and the intermediate catch-up factor
remap(2, 1, 6, 1.03, 1.08) is exactly 1.04, not approximately 1.05. -/
theorem C4_counterexample :
    computeRubberBandModifier 3 1 6 50 = 1.02 ∧
    (1.02 : ℚ) ≠ 1.025 ∧ |(1.02 : ℚ) - 1.025| = 1 / 200 ∧
    remap 2 1 6 1.03 1.08 = 1.04 ∧ (1.04 : ℚ) ≠ 1.05 := by
  refine ⟨?_, ?_, ?_, ?_, ?_⟩ <;>
    norm_num [computeRubberBandModifier, remap, lerp, clamp, min_def, max_def]

/-- C4 (amended): computeRubberBandModifier(aiPosition=3, playerPosition=1,
totalRacers=6, distanceBehindPlayer=50) takes the boost branch and returns
exactly 1.02, with intermediate catch-up factor remap(2,1,6,1.03,1.08) = 1.04
and distance factor 0.5. -/
theorem C4_rubber_band_scenario :
    computeRubberBandModifier 3 1 6 50 = 1.02 ∧
    remap 2 1 6 1.03 1.08 = 1.04 ∧
    clamp ((50 : ℚ) / 100) 0 1 = 0.5 ∧
    computeRubberBandModifier 3 1 6 50 = 1 + (remap 2 1 6 1.03 1.08 - 1) * (1 / 2) := by
  refine ⟨?_, ?_, ?_, ?_⟩ <;>
    norm_num [computeRubberBandModifier, remap, lerp, clamp, min_def, max_def]

/-- C5 counterexample: with playerPosition = 1, totalRacers = 6 and
distanceBehindPlayer = 100 fixed, the modifier at aiPosition = 2 is 1.03 and
at aiPosition = 3 it is 1.04, so it is not monotonically decreasing in
(aiPosition - playerPosition) over aiPosition > playerPosition. -/
theorem C5_counterexample :
    computeRubberBandModifier 2 1 6 100 = 1.03 ∧
    computeRubberBandModifier 3 1 6 100 = 1.04 ∧
    ¬ computeRubberBandModifier 3 1 6 100 ≤ computeRubberBandModifier 2 1 6 100 := by
  refine ⟨?_, ?_, ?_⟩ <;>
    norm_num [computeRubberBandModifier, remap, lerp, clamp, min_def, max_def]

/-- C5 (amended): for every fixed playerPosition, totalRacers ≥ 2 and fixed
distanceBehindPlayer > 0, computeRubberBandModifier returns exactly 1 when
aiPosition = playerPosition, and its result is monotonically non-decreasing
in (aiPosition - playerPosition) over aiPosition > playerPosition. -/
theorem C5_rubber_band_unit_and_monotone :
    (∀ p totalRacers dist : ℚ, computeRubberBandModifier p p totalRacers dist = 1) ∧
    (∀ playerPos totalRacers dist a b : ℚ,
      2 ≤ totalRacers → 0 < dist → playerPos < a → a ≤ b →
      computeRubberBandModifier a playerPos totalRacers dist ≤
        computeRubberBandModifier b playerPos totalRacers dist) := by
  constructor
  · intro p totalRacers dist
    simp [computeRubberBandModifier]
  · intro playerPos totalRacers dist a b hT hd hpa hab
    have hpb : playerPos < b := lt_of_lt_of_le hpa hab
    have ha1 : ¬ a < playerPos := not_lt.mpr hpa.le
    have hb1 : ¬ b < playerPos := not_lt.mpr hpb.le
    simp only [computeRubberBandModifier, ha1, hb1, if_false, hpa, hpb, if_true]
    have hdf : (0 : ℚ) ≤ clamp (dist / 100) 0 1 := le_clamp _ _ _
    have hmono : remap (a - playerPos) 1 totalRacers 1.03 1.08 ≤
        remap (b - playerPos) 1 totalRacers 1.03 1.08 :=
      remap_mono (by linarith) (by norm_num) (by linarith)
    nlinarith [mul_le_mul_of_nonneg_right hmono hdf]

/-- C5 witness: the amended monotonicity applied at the concrete scenario
playerPosition = 1, totalRacers = 6, distance = 100, aiPositions 2 and 3. -/
theorem C5_rubber_band_unit_and_monotone_witness :
    (2 : ℚ) ≤ 6 ∧ (0 : ℚ) < 100 ∧ (1 : ℚ) < 2 ∧ (2 : ℚ) ≤ 3 ∧
    computeRubberBandModifier 2 1 6 100 ≤ computeRubberBandModifier 3 1 6 100 :=
  ⟨by norm_num, by norm_num, by norm_num, by norm_num,
    C5_rubber_band_unit_and_monotone.2 1 6 100 2 3 (by norm_num) (by norm_num)
      (by norm_num) (by norm_num)⟩

/-- C8 counterexample: constructing a CatmullRomSpline from only 3 control
points (fewer than 4) is not a construction-time error: the constructor
stores the points unchanged and the resulting object is usable, with
interpolate at parameter 0 returning the first control point. -/
theorem C8_counterexample :
    (mkCatmullRomSpline [⟨0, 0, 0⟩, ⟨1, 0, 0⟩, ⟨0, 0, 1⟩] true).points.length = 3 ∧
    3 < 4 ∧
    interpolate (mkCatmullRomSpline [⟨0, 0, 0⟩, ⟨1, 0, 0⟩, ⟨0, 0, 1⟩] true) 0 = ⟨0, 0, 0⟩ := by
  refine ⟨rfl, by norm_num, ?_⟩
  norm_num [interpolate, interpolateRaw, mkCatmullRomSpline, jsMod, jsTrunc,
    getMod, getWrapped, Int.tmod, List.getD]

/-- C8 (amended): constructing a Curve (CatmullRomSpline) from fewer than 4
control points is not a construction-time error: the constructor performs no
point-count validation and always succeeds, storing the control points and
the closed flag, and the resulting object is usable at runtime, interpolation
wrapping point indices modulo the point count. -/
theorem C8_no_construction_validation :
    (∀ (pts : List Vec3Q) (c : Bool),
      (mkCatmullRomSpline pts c).points = pts ∧ (mkCatmullRomSpline pts c).closed = c) ∧
    interpolate (mkCatmullRomSpline [⟨0, 0, 0⟩, ⟨1, 0, 0⟩, ⟨0, 0, 1⟩] true) (1 / 3) =
      ⟨1, 0, 0⟩ := by
  refine ⟨fun pts c => ⟨rfl, rfl⟩, ?_⟩
  norm_num [interpolate, interpolateRaw, mkCatmullRomSpline, jsMod, jsTrunc,
    getMod, getWrapped, Int.tmod, List.getD]

/-- C1: for every tire configuration with non-negative peak grip and every
normal force N ≥ 0, slip angle and slip ratio, the vector magnitude of the
pair returned by TireModel.computeCombinedForces is at most peakGrip * N,
and the returned pair is the unclipped pair scaled by one common
non-negative factor, so the force direction is preserved. -/
theorem C1_friction_circle (cfg : WheelConfig) (slipAngle slipRatio normalForce : ℝ)
    (hgrip : 0 ≤ cfg.peakGrip) (hN : 0 ≤ normalForce) :
    Real.sqrt ((TireModel.computeCombinedForces cfg slipAngle slipRatio normalForce).1 ^ 2 +
        (TireModel.computeCombinedForces cfg slipAngle slipRatio normalForce).2 ^ 2) ≤
      cfg.peakGrip * normalForce ∧
    ∃ s : ℝ, 0 ≤ s ∧
      (TireModel.computeCombinedForces cfg slipAngle slipRatio normalForce).1 =
        s * TireModel.computeLateralForce cfg slipAngle normalForce ∧
      (TireModel.computeCombinedForces cfg slipAngle slipRatio normalForce).2 =
        s * TireModel.computeLongitudinalForce cfg slipRatio normalForce := by
  have hL : TireModel.computeLateralForce cfg slipAngle normalForce =
      TireModel.computeLateralForce cfg slipAngle normalForce := rfl
  set L := TireModel.computeLateralForce cfg slipAngle normalForce with hLdef
  set G := TireModel.computeLongitudinalForce cfg slipRatio normalForce with hGdef
  set M := cfg.peakGrip * normalForce with hMdef
  set T := Real.sqrt (L * L + G * G) with hTdef
  have hM0 : 0 ≤ M := mul_nonneg hgrip hN
  have hT0 : 0 ≤ T := Real.sqrt_nonneg _
  have hcc : TireModel.computeCombinedForces cfg slipAngle slipRatio normalForce =
      if M < T ∧ 0 < T then (L * (M / T), G * (M / T)) else (L, G) := rfl
  rw [hcc]
  by_cases h : M < T ∧ 0 < T
  · rw [if_pos h]
    have hTne : T ≠ 0 := ne_of_gt h.2
    have hs0 : 0 ≤ M / T := div_nonneg hM0 hT0
    constructor
    · have key : (L * (M / T)) ^ 2 + (G * (M / T)) ^ 2 = (L * L + G * G) * (M / T) ^ 2 := by
        ring
      simp only [key]
      rw [Real.sqrt_mul (add_nonneg (mul_self_nonneg L) (mul_self_nonneg G)),
        Real.sqrt_sq hs0, ← hTdef, mul_comm, div_mul_cancel₀ M hTne]
    · exact ⟨M / T, hs0, by ring, by ring⟩
  · rw [if_neg h]
    push_neg at h
    constructor
    · have key : L ^ 2 + G ^ 2 = L * L + G * G := by ring
      simp only [key, ← hTdef]
      rcases le_or_lt T M with hTM | hMT
      · exact hTM
      · have hT0le := h hMT
        linarith
    · exact ⟨1, zero_le_one, by ring, by ring⟩

/-- C1 witness: the friction-circle bound at a concrete configuration and
concrete slip inputs, the hypotheses discharged numerically. -/
theorem C1_friction_circle_witness :
    0 ≤ sampleWheelConfig.peakGrip ∧ 0 ≤ (1 : ℝ) ∧
    Real.sqrt ((TireModel.computeCombinedForces sampleWheelConfig 0.2 0.1 1).1 ^ 2 +
        (TireModel.computeCombinedForces sampleWheelConfig 0.2 0.1 1).2 ^ 2) ≤
      sampleWheelConfig.peakGrip * 1 :=
  ⟨by norm_num [sampleWheelConfig], by norm_num,
    (C1_friction_circle sampleWheelConfig 0.2 0.1 1 (by norm_num [sampleWheelConfig])
      (by norm_num)).1⟩

/-- C2 counterexample: before a chassis body is attached, getState of a
fresh controller is exactly equal to the state of the same controller
attached to a valid body resting at the origin; the not-ready result is a
same-shaped zero state, not a distinguishable not-ready value. -/
theorem C2_counterexample :
    getState (mkVehicleController sampleVehicleConfig) =
      getState (setChassisBody (mkVehicleController sampleVehicleConfig)
        { translation := ⟨0, 0, 0⟩, rotation := ⟨0, 0, 0, 1⟩, linvel := ⟨0, 0, 0⟩ }
        { castRay := fun _ _ _ => none }) := rfl

/-- C2 (amended): before a chassis body reference has been attached,
VehicleController.getState returns an ordinary same-shaped VehicleState with
origin position, identity rotation and zero velocity, indistinguishable from
the state of a valid body resting at the origin. -/
theorem C2_not_ready_state_is_zero_state (cfg : VehicleConfig) (w : World) :
    getState (mkVehicleController cfg) =
      getState (setChassisBody (mkVehicleController cfg)
        { translation := ⟨0, 0, 0⟩, rotation := ⟨0, 0, 0, 1⟩, linvel := ⟨0, 0, 0⟩ } w) := rfl

/-- C3: with the handbrake pulled and the brake pedal at zero, the brake
torque on a grounded non-steered wheel is forced to the fixed handbrake
torque 12000, yet the brake force actually applied is zero, because the
source multiplies the brake force vector by the effective pedal brake value.
Here the wheel has normal force 3000, peak grip 1 and longitudinal speed 10,
so a force of magnitude min(12000, 3000) = 3000 was intended. -/
theorem C3_handbrake_applies_zero_force :
    brakeTorqueOf false true false 0 0 = 12000 ∧
    min (brakeTorqueOf false true false 0 0) (3000 * 1) = 3000 ∧
    brakeAppliedForce false true false 0 0 3000 1 10 = 0 := by
  refine ⟨?_, ?_, ?_⟩ <;>
    norm_num [brakeAppliedForce, brakeTorqueOf, brakeForce, handbrakeForce, min_def]

/-- C6: SuspensionModel.computeForce returns exactly 0 for every
compression ≤ 0; for compression > 0 it returns
max(0, springRate * min(compression, maxTravel) + dampingRate *
clamp(velocity, -maxDamperVelocity, maxDamperVelocity)) with the damper
bound defaulting to 4.0; in particular with compression 0.05 and maxTravel
0.03 the spring contribution is springRate * 0.03. -/
theorem C6_suspension_force (cfg : SuspensionConfig) (compression compressionVelocity : ℝ) :
    (compression ≤ 0 → SuspensionModel.computeForce cfg compression compressionVelocity = 0) ∧
    (0 < compression →
      SuspensionModel.computeForce cfg compression compressionVelocity =
        max 0 (cfg.springRate * min compression cfg.maxTravel +
          cfg.dampingRate * clamp compressionVelocity (-(cfg.maxDamperVelocity.getD 4.0))
            (cfg.maxDamperVelocity.getD 4.0))) ∧
    (cfg.maxTravel = 0.03 →
      SuspensionModel.computeForce cfg 0.05 compressionVelocity =
        max 0 (cfg.springRate * 0.03 +
          cfg.dampingRate * clamp compressionVelocity (-(cfg.maxDamperVelocity.getD 4.0))
            (cfg.maxDamperVelocity.getD 4.0))) := by
  refine ⟨fun h => ?_, fun h => ?_, fun h03 => ?_⟩
  · simp [SuspensionModel.computeForce, h]
  · have h1 : ¬ compression ≤ 0 := not_le.mpr h
    simp [SuspensionModel.computeForce, h1]
  · have h1 : ¬ (0.05 : ℝ) ≤ 0 := by norm_num
    have hmin : min (0.05 : ℝ) cfg.maxTravel = 0.03 := by rw [h03]; norm_num [min_def]
    simp [SuspensionModel.computeForce, h1, hmin]

/-- C6 witness: both branches at the concrete configuration with
maxTravel = 0.03, at compression -1 and at the over-travel compression
0.05, the hypotheses discharged numerically. -/
theorem C6_suspension_force_witness :
    ((-1 : ℝ) ≤ 0 ∧ SuspensionModel.computeForce sampleSuspensionConfig (-1) 2 = 0) ∧
    (sampleSuspensionConfig.maxTravel = 0.03 ∧
      SuspensionModel.computeForce sampleSuspensionConfig 0.05 2 =
        max 0 (sampleSuspensionConfig.springRate * 0.03 +
          sampleSuspensionConfig.dampingRate *
            clamp 2 (-(sampleSuspensionConfig.maxDamperVelocity.getD 4.0))
              (sampleSuspensionConfig.maxDamperVelocity.getD 4.0))) :=
  ⟨⟨by norm_num, (C6_suspension_force sampleSuspensionConfig (-1) 2).1 (by norm_num)⟩,
   ⟨by norm_num [sampleSuspensionConfig],
    (C6_suspension_force sampleSuspensionConfig 0.05 2).2.2
      (by norm_num [sampleSuspensionConfig])⟩⟩

/-- C7: Drivetrain.getEngineTorque linearly interpolates the torque curve
and clamps at the table extremes: on the curve
[(1000,100),(4000,250),(7000,180)] it returns 250 exactly at rpm 4000 and
175 at rpm 2500; at or below the first sample it returns the first torque
and at or above the last sample it returns the last torque, both for this
concrete curve and for an arbitrary nonempty curve. -/
theorem C7_engine_torque_interpolation :
    getEngineTorque [((1000 : ℝ), 100), (4000, 250), (7000, 180)] 4000 = 250 ∧
    getEngineTorque [((1000 : ℝ), 100), (4000, 250), (7000, 180)] 2500 = 175 ∧
    (∀ rpm : ℝ, rpm ≤ 1000 →
      getEngineTorque [((1000 : ℝ), 100), (4000, 250), (7000, 180)] rpm = 100) ∧
    (∀ rpm : ℝ, 7000 ≤ rpm →
      getEngineTorque [((1000 : ℝ), 100), (4000, 250), (7000, 180)] rpm = 180) ∧
    (∀ (p : ℝ × ℝ) (rest : List (ℝ × ℝ)) (rpm : ℝ), rpm ≤ p.1 →
      getEngineTorque (p :: rest) rpm = p.2) ∧
    (∀ (p : ℝ × ℝ) (rest : List (ℝ × ℝ)) (rpm : ℝ), p.1 < rpm →
      (lastSample p rest).1 ≤ rpm →
      getEngineTorque (p :: rest) rpm = (lastSample p rest).2) := by
  refine ⟨?_, ?_, ?_, ?_, ?_, ?_⟩
  · norm_num [getEngineTorque, torqueLoop, lerp, lastSample]
  · norm_num [getEngineTorque, torqueLoop, lerp, lastSample]
  · intro rpm h
    simp [getEngineTorque, h]
  · intro rpm h
    have h1 : ¬ rpm ≤ 1000 := by linarith
    simp [getEngineTorque, lastSample, h1, h]
  · intro p rest rpm h
    simp [getEngineTorque, h]
  · intro p rest rpm h1 h2
    simp [getEngineTorque, not_le.mpr h1, h2]

/-- C7 witness: the clamping branches applied at rpm 500 and rpm 8000 on
the concrete curve. -/
theorem C7_engine_torque_interpolation_witness :
    (500 : ℝ) ≤ 1000 ∧ (7000 : ℝ) ≤ 8000 ∧
    getEngineTorque [((1000 : ℝ), 100), (4000, 250), (7000, 180)] 500 = 100 ∧
    getEngineTorque [((1000 : ℝ), 100), (4000, 250), (7000, 180)] 8000 = 180 :=
  ⟨by norm_num, by norm_num,
    C7_engine_torque_interpolation.2.2.1 500 (by norm_num),
    C7_engine_torque_interpolation.2.2.2.1 8000 (by norm_num)⟩

/-- C9: calling VehicleController.update before a chassis body and world
have been attached is a no-op: the controller state is returned unchanged,
wheel states, drivetrain rpm and gear included, and no force command is
issued to any body. -/
theorem C9_update_noop_without_body (c : VehicleController) (input : InputState) (dt : ℝ)
    (h : c.chassisBody = none ∨ c.world = none) :
    update c input dt = (c, []) := by
  unfold update
  rcases h with h | h
  · rw [h]
  · rw [h]
    rcases c.chassisBody with _ | b <;> rfl

/-- C9 witness: a freshly constructed controller has no body attached, and
update on it with an arbitrary concrete input is the identity with no force
commands. -/
theorem C9_update_noop_without_body_witness :
    ((mkVehicleController sampleVehicleConfig).chassisBody = none ∨
      (mkVehicleController sampleVehicleConfig).world = none) ∧
    update (mkVehicleController sampleVehicleConfig)
        { throttle := 1, brake := 0.5, steering := 0.3, handbrake := true } (1 / 60) =
      (mkVehicleController sampleVehicleConfig, []) :=
  ⟨Or.inl rfl,
    C9_update_noop_without_body (mkVehicleController sampleVehicleConfig)
      { throttle := 1, brake := 0.5, steering := 0.3, handbrake := true } (1 / 60)
      (Or.inl rfl)⟩

/-- C10 counterexample: with an engine configuration satisfying
idleRpm ≤ maxRpm but an empty gear table, the claimed invariant already
fails after construction, because the constructor starts in gear 1 while
gearRatios.length = 0. -/
theorem C10_counterexample :
    sampleEngineConfig.idleRpm ≤ sampleEngineConfig.maxRpm ∧
    ¬ DrivetrainInv (mkDrivetrain sampleEngineConfig emptyGearboxConfig) := by
  constructor
  · norm_num [sampleEngineConfig]
  · intro h
    have hg := h.2.2.2
    norm_num [mkDrivetrain, emptyGearboxConfig] at hg

/-- C10 (amended): assuming idleRpm ≤ maxRpm and a nonempty gear table, the
Drivetrain invariant idleRpm ≤ rpm ≤ maxRpm and
-1 ≤ currentGear ≤ gearRatios.length holds after construction and is
preserved by updateRpm, updateAutoShift and setGear individually and by any
sequence of these operations in any order. -/
theorem C10_drivetrain_invariant :
    (∀ (e : EngineConfig) (t : TransmissionConfig),
      e.idleRpm ≤ e.maxRpm → 1 ≤ t.gearRatios.length → DrivetrainInv (mkDrivetrain e t)) ∧
    (∀ d : Drivetrain, DrivetrainInv d →
      ∀ ω th dt : ℝ, DrivetrainInv (updateRpm d ω th dt)) ∧
    (∀ d : Drivetrain, DrivetrainInv d → ∀ dt : ℝ, DrivetrainInv (updateAutoShift d dt)) ∧
    (∀ d : Drivetrain, DrivetrainInv d → ∀ g : ℤ, DrivetrainInv (setGear d g)) ∧
    (∀ d : Drivetrain, DrivetrainInv d →
      ∀ ops : List DrivetrainOp, DrivetrainInv (ops.foldl applyDrivetrainOp d)) := by
  have hmk : ∀ (e : EngineConfig) (t : TransmissionConfig),
      e.idleRpm ≤ e.maxRpm → 1 ≤ t.gearRatios.length → DrivetrainInv (mkDrivetrain e t) := by
    intro e t him hlen
    refine ⟨le_rfl, him, by norm_num [mkDrivetrain], ?_⟩
    simp only [mkDrivetrain]
    exact_mod_cast hlen
  have hrpm : ∀ d : Drivetrain, DrivetrainInv d →
      ∀ ω th dt : ℝ, DrivetrainInv (updateRpm d ω th dt) := by
    intro d hd ω th dt
    obtain ⟨h1, h2, h3, h4⟩ := hd
    have him : d.engineConfig.idleRpm ≤ d.engineConfig.maxRpm := le_trans h1 h2
    simp only [updateRpm]
    split_ifs with hc ht
    · exact ⟨le_rfl, him, h3, h4⟩
    · exact ⟨le_max_left _ _, max_le him (min_le_left _ _), h3, h4⟩
    · exact ⟨le_max_left _ _, max_le him (min_le_left _ _), h3, h4⟩
  have hshift : ∀ d : Drivetrain, DrivetrainInv d →
      ∀ dt : ℝ, DrivetrainInv (updateAutoShift d dt) := by
    intro d hd dt
    obtain ⟨h1, h2, h3, h4⟩ := hd
    simp only [updateAutoShift]
    split_ifs with hc hup hdown
    · exact ⟨h1, h2, h3, h4⟩
    · refine ⟨h1, h2, ?_, ?_⟩
      · show (-1 : ℤ) ≤ d.currentGear + 1
        omega
      · show d.currentGear + 1 ≤ (d.transConfig.gearRatios.length : ℤ)
        omega
    · refine ⟨h1, h2, ?_, ?_⟩
      · show (-1 : ℤ) ≤ d.currentGear - 1
        omega
      · show d.currentGear - 1 ≤ (d.transConfig.gearRatios.length : ℤ)
        omega
    · exact ⟨h1, h2, h3, h4⟩
  have hgear : ∀ d : Drivetrain, DrivetrainInv d →
      ∀ g : ℤ, DrivetrainInv (setGear d g) := by
    intro d hd g
    obtain ⟨h1, h2, h3, h4⟩ := hd
    have hlen : (-1 : ℤ) ≤ (d.transConfig.gearRatios.length : ℤ) := by omega
    exact ⟨h1, h2, le_max_left _ _, max_le hlen (min_le_left _ _)⟩
  refine ⟨hmk, hrpm, hshift, hgear, ?_⟩
  intro d hd ops
  induction ops generalizing d with
  | nil => exact hd
  | cons op rest ih =>
    rcases op with ⟨ω, th, dt⟩ | ⟨dt⟩ | ⟨g⟩
    · exact ih _ (hrpm d hd ω th dt)
    · exact ih _ (hshift d hd dt)
    · exact ih _ (hgear d hd g)

/-- C10 witness: the amended invariant instantiated at the concrete sample
configuration against a concrete operation sequence, the hypotheses
discharged numerically. -/
theorem C10_drivetrain_invariant_witness :
    sampleEngineConfig.idleRpm ≤ sampleEngineConfig.maxRpm ∧
    1 ≤ sampleTransmissionConfig.gearRatios.length ∧
    DrivetrainInv (mkDrivetrain sampleEngineConfig sampleTransmissionConfig) ∧
    DrivetrainInv (List.foldl applyDrivetrainOp
      (mkDrivetrain sampleEngineConfig sampleTransmissionConfig)
      [DrivetrainOp.updRpm 100 0.5 (1 / 60), DrivetrainOp.autoShift (1 / 60),
        DrivetrainOp.shift 3]) :=
  ⟨by norm_num [sampleEngineConfig], by norm_num [sampleTransmissionConfig],
    C10_drivetrain_invariant.1 sampleEngineConfig sampleTransmissionConfig
      (by norm_num [sampleEngineConfig]) (by norm_num [sampleTransmissionConfig]),
    C10_drivetrain_invariant.2.2.2.2
      (mkDrivetrain sampleEngineConfig sampleTransmissionConfig)
      (C10_drivetrain_invariant.1 sampleEngineConfig sampleTransmissionConfig
        (by norm_num [sampleEngineConfig]) (by norm_num [sampleTransmissionConfig]))
      [DrivetrainOp.updRpm 100 0.5 (1 / 60), DrivetrainOp.autoShift (1 / 60),
        DrivetrainOp.shift 3]⟩
